import Mathlib

/-!
Shallow embedding of the elitestack/lms_backend repository (three Express/Mongoose
source files) for checking its natural-language specification.

Modelling conventions, stated once:
* A JWT is either a signed record (payload, signing key, expiry instant) or a
  malformed string.  Signing keys are identified by the environment-variable name
  the code reads them from (JWT_SECRET vs JWT_REFRESH_SECRET); the two are distinct
  configuration entries in the code.
* Verification (the jsonwebtoken library) checks the signature first, then expiry:
  a wrong-key or malformed token raises JsonWebTokenError, a correctly signed but
  expired token raises TokenExpiredError.  Time is a Nat instant.
* JavaScript falsiness of a request field or header (undefined or the empty string)
  is modelled by an Option String being none or holding the empty string.
* bcrypt is modelled as a deterministic injective one-way function; only the
  success/failure of the comparison matters to the control flow under study.
* Persistence (Mongoose) is explicit state passing: the user store is a list of
  user documents, the catalog and the notification log are likewise lists.
  Fresh ObjectIds are modelled by a caller-supplied counter.
-/

namespace LMS

/-- Claims carried by a token payload in this backend: a user id, and optionally a
role claim (access tokens carry one, refresh tokens do not). -/
structure Payload where
  userId : Nat
  role : Option String
deriving DecidableEq, Repr

/-- A JWT: either a payload signed under a key with an expiry instant, or a
malformed string that fails structural verification. -/
inductive Token where
  | signed (payload : Payload) (secret : String) (exp : Nat)
  | malformed (raw : String)
deriving DecidableEq, Repr

/-- Failure modes of jwt.verify: TokenExpiredError or JsonWebTokenError. -/
inductive VerifyError where
  | expired
  | invalid
deriving DecidableEq, Repr

/-- jwt.verify(token, secret) at instant now: wrong key or malformed structure
gives JsonWebTokenError; a correctly signed token past its expiry gives
TokenExpiredError; otherwise the decoded payload. -/
def jwtVerify : Token → String → Nat → Except VerifyError Payload
  | .malformed _, _, _ => .error .invalid
  | .signed p s e, secret, now =>
    if s ≠ secret then .error .invalid
    else if e ≤ now then .error .expired
    else .ok p

/-- Signing key for access tokens (the process.env.JWT_SECRET entry). -/
def JWT_SECRET : String := "JWT_SECRET"

/-- Signing key for refresh tokens (the process.env.JWT_REFRESH_SECRET entry). -/
def JWT_REFRESH_SECRET : String := "JWT_REFRESH_SECRET"

/-- A stored user document (the UserAdmin model in src/api/index.js): name, unique
email, bcrypt password hash, role string, and the refreshTokens array. -/
structure User where
  id : Nat
  name : String
  email : String
  password : String
  role : String
  refreshTokens : List Token
deriving DecidableEq, Repr

/-- The headers of a request hitting the auth middleware.  The token field is the
second space-separated part of the authorization header (authHeader and
authHeader.split of a blank, index 1): none when the header is absent or has no
such part. -/
structure AuthRequest where
  token : Option Token
  emailHeader : Option String
  roleHeader : Option String
deriving DecidableEq, Repr

/-- Outcome of the middleware: an error response (status, code) or acceptance,
which attaches the resolved user to the request and calls next(). -/
inductive AuthOutcome where
  | reject (status : Nat) (code : String)
  | accept (user : User)
deriving DecidableEq, Repr

/-- JavaScript falsiness of an optional string field: absent or empty. -/
def isBlank : Option String → Bool
  | none => true
  | some s => s.isEmpty

/-- User.findOne on _id = uid and email = email. -/
def findCredential (store : List User) (uid : Nat) (email : String) : Option User :=
  store.find? (fun u => u.id == uid && u.email == email)

/-- One entry of the refreshTokens scan: jwt.verify under the refresh key inside a
try/catch that maps any verification error to false, then comparing the decoded
userId with the access token's. -/
def refreshTokenMatches (uid : Nat) (now : Nat) (t : Token) : Bool :=
  match jwtVerify t JWT_REFRESH_SECRET now with
  | .ok rt => rt.userId == uid
  | .error _ => false

/-- The user.refreshTokens.some scan of the middleware. -/
def refreshScan (u : User) (uid : Nat) (now : Nat) : Bool :=
  u.refreshTokens.any (refreshTokenMatches uid now)

/-- The authenticateToken middleware of src/api/index.js: token-missing check,
email-header check, jwt.verify of the access token (whose thrown errors the outer
catch maps to TOKEN_EXPIRED or INVALID_TOKEN), credential lookup, and the
refresh-token scan; on success the user is attached and next() runs. -/
def authenticateToken (store : List User) (now : Nat) (req : AuthRequest) : AuthOutcome :=
  match req.token with
  | none => .reject 401 "TOKEN_MISSING"
  | some tok =>
    if isBlank req.emailHeader then .reject 401 "EMAIL_MISSING"
    else
      match jwtVerify tok JWT_SECRET now with
      | .error .expired => .reject 401 "TOKEN_EXPIRED"
      | .error .invalid => .reject 403 "INVALID_TOKEN"
      | .ok decoded =>
        match findCredential store decoded.userId (req.emailHeader.getD "") with
        | none => .reject 403 "INVALID_CREDENTIALS"
        | some user =>
          if refreshScan user decoded.userId now then .accept user
          else .reject 403 "TOKEN_INVALIDATED"

/-- Access-token lifetime: the 15m default of JWT_ACCESS_EXPIRES_IN, in seconds. -/
def ACCESS_TTL : Nat := 15 * 60

/-- Refresh-token lifetime: the 7d default of JWT_REFRESH_EXPIRES_IN, in seconds. -/
def REFRESH_TTL : Nat := 7 * 24 * 60 * 60

/-- bcrypt.hash modelled as a deterministic injective one-way function. -/
def bcryptHash (password : String) : String := "bcrypt$" ++ password

/-- bcrypt.compare: true exactly when the hash was produced from the password. -/
def bcryptCompare (password hash : String) : Bool := bcryptHash password == hash

/-- jwt.sign of the access payload: userId and role, under the access key. -/
def issueAccessToken (uid : Nat) (role : String) (now : Nat) : Token :=
  .signed ⟨uid, some role⟩ JWT_SECRET (now + ACCESS_TTL)

/-- jwt.sign of the refresh payload: userId only, under the refresh key. -/
def issueRefreshToken (uid : Nat) (now : Nat) : Token :=
  .signed ⟨uid, none⟩ JWT_REFRESH_SECRET (now + REFRESH_TTL)

/-- The token and refreshToken fields of a registration or login response. -/
structure TokenPair where
  token : Token
  refreshToken : Token
deriving DecidableEq, Repr

/-- Body of a POST /api/register request; none models an absent field. -/
structure RegisterRequest where
  name : Option String
  email : Option String
  password : Option String
deriving DecidableEq, Repr

/-- Response of the register handler: an error (status, message), or 201 with the
role echoed in the body, the token pair, and the persisted user document. -/
inductive RegisterResult where
  | failure (status : Nat) (message : String)
  | success (status : Nat) (role : String) (tokens : TokenPair) (user : User)
deriving DecidableEq, Repr

/-- The POST /api/register handler of src/api/index.js: field-presence check, the
8-character password minimum, the duplicate-email lookup, bcrypt hashing, the
first-user-is-admin role rule (countDocuments before the insert), persisting the
user, issuing the token pair, and pushing the refresh token onto the new user's
refreshTokens before the 201 response.  nextId models the fresh ObjectId. -/
def register (store : List User) (nextId now : Nat) (req : RegisterRequest) :
    RegisterResult × List User :=
  if isBlank req.name || isBlank req.email || isBlank req.password then
    (.failure 400 "All fields are required", store)
  else if (req.password.getD "").length < 8 then
    (.failure 400 "Password must be at least 8 characters", store)
  else if (store.find? (fun u => u.email == req.email.getD "")).isSome then
    (.failure 400 "Email already in use", store)
  else
    let role := if store.length == 0 then "admin" else "student"
    let accessTok := issueAccessToken nextId role now
    let refreshTok := issueRefreshToken nextId now
    let newUser : User :=
      ⟨nextId, req.name.getD "", req.email.getD "", bcryptHash (req.password.getD ""),
        role, [refreshTok]⟩
    (.success 201 role ⟨accessTok, refreshTok⟩ newUser, store ++ [newUser])

/-- Body of a POST /api/login request. -/
structure LoginRequest where
  email : Option String
  password : Option String
deriving DecidableEq, Repr

/-- Response of the login handler. -/
inductive LoginResult where
  | failure (status : Nat) (message : String)
  | success (tokens : TokenPair) (user : User)
deriving DecidableEq, Repr

/-- The POST /api/login handler of src/api/index.js: presence check, lookup by
email, bcrypt comparison, token-pair issuance, and appending the refresh token to
the user's refreshTokens before saving. -/
def login (store : List User) (now : Nat) (req : LoginRequest) :
    LoginResult × List User :=
  if isBlank req.email || isBlank req.password then
    (.failure 400 "Email and password required", store)
  else
    match store.find? (fun u => u.email == req.email.getD "") with
    | none => (.failure 401 "Invalid email or password", store)
    | some user =>
      if ! bcryptCompare (req.password.getD "") user.password then
        (.failure 401 "Invalid email or password", store)
      else
        let accessTok := issueAccessToken user.id user.role now
        let refreshTok := issueRefreshToken user.id now
        let user' := { user with refreshTokens := user.refreshTokens ++ [refreshTok] }
        (.success ⟨accessTok, refreshTok⟩ user',
          store.map (fun u => if u.id == user.id then user' else u))

/-- A course document: name, code, ObjectId reference lists for lessons and
assignments, and the creating admin. -/
structure Course where
  id : Nat
  name : String
  code : String
  lessons : List Nat
  assignments : List Nat
  createdBy : Nat
deriving DecidableEq, Repr

/-- A lesson document, referencing its owning course. -/
structure Lesson where
  id : Nat
  title : String
  youtubeLink : String
  course : Nat
deriving DecidableEq, Repr

/-- An assignment document, referencing its owning course. -/
structure Assignment where
  id : Nat
  title : String
  link : String
  course : Nat
deriving DecidableEq, Repr

/-- The catalog collections, with a counter modelling fresh ObjectIds. -/
structure Catalog where
  courses : List Course
  lessons : List Lesson
  assignments : List Assignment
  nextId : Nat
deriving DecidableEq, Repr

/-- Body of a PUT /api/courses request: fields present in req.body overwrite. -/
structure CourseUpdate where
  name : Option String
  code : Option String
deriving DecidableEq, Repr

/-- Body of a PUT /api/lessons request. -/
structure LessonUpdate where
  title : Option String
  youtubeLink : Option String
deriving DecidableEq, Repr

/-- Body of a PUT /api/assignments request. -/
structure AssignmentUpdate where
  title : Option String
  link : Option String
deriving DecidableEq, Repr

/-- findByIdAndUpdate field application for a course. -/
def applyCourseUpdate (b : CourseUpdate) (c : Course) : Course :=
  { c with name := b.name.getD c.name, code := b.code.getD c.code }

/-- findByIdAndUpdate field application for a lesson. -/
def applyLessonUpdate (b : LessonUpdate) (l : Lesson) : Lesson :=
  { l with title := b.title.getD l.title, youtubeLink := b.youtubeLink.getD l.youtubeLink }

/-- findByIdAndUpdate field application for an assignment. -/
def applyAssignmentUpdate (b : AssignmentUpdate) (a : Assignment) : Assignment :=
  { a with title := b.title.getD a.title, link := b.link.getD a.link }

/-- POST /api/courses, run after authenticateToken accepted user u.  Note the gate
reads the raw role header, not u.role. -/
def createCourse (u : User) (roleHeader : Option String) (name code : String)
    (cat : Catalog) : Nat × Catalog :=
  if roleHeader ≠ some "admin" then (403, cat)
  else
    let c : Course := ⟨cat.nextId, name, code, [], [], u.id⟩
    (201, { cat with courses := cat.courses ++ [c], nextId := cat.nextId + 1 })

/-- PUT /api/courses, gated on the authenticated user's role. -/
def updateCourse (u : User) (id : Nat) (b : CourseUpdate) (cat : Catalog) :
    Nat × Catalog :=
  if u.role ≠ "admin" then (403, cat)
  else (200, { cat with
    courses := cat.courses.map (fun c => if c.id == id then applyCourseUpdate b c else c) })

/-- DELETE /api/courses, gated on the authenticated user's role. -/
def deleteCourse (u : User) (id : Nat) (cat : Catalog) : Nat × Catalog :=
  if u.role ≠ "admin" then (403, cat)
  else (200, { cat with courses := cat.courses.filter (fun c => c.id != id) })

/-- POST /api/courses of :courseId/lessons: creates the lesson referencing the
course, then findByIdAndUpdate pushes its id onto the course's lessons list. -/
def createLesson (u : User) (courseId : Nat) (title youtubeLink : String)
    (cat : Catalog) : Nat × Catalog :=
  if u.role ≠ "admin" then (403, cat)
  else
    let l : Lesson := ⟨cat.nextId, title, youtubeLink, courseId⟩
    (201, { cat with
      lessons := cat.lessons ++ [l],
      courses := cat.courses.map (fun c =>
        if c.id == courseId then { c with lessons := c.lessons ++ [l.id] } else c),
      nextId := cat.nextId + 1 })

/-- PUT /api/lessons, gated on the authenticated user's role. -/
def updateLesson (u : User) (id : Nat) (b : LessonUpdate) (cat : Catalog) :
    Nat × Catalog :=
  if u.role ≠ "admin" then (403, cat)
  else (200, { cat with
    lessons := cat.lessons.map (fun l => if l.id == id then applyLessonUpdate b l else l) })

/-- DELETE /api/lessons, gated on the authenticated user's role. -/
def deleteLesson (u : User) (id : Nat) (cat : Catalog) : Nat × Catalog :=
  if u.role ≠ "admin" then (403, cat)
  else (200, { cat with lessons := cat.lessons.filter (fun l => l.id != id) })

/-- POST /api/courses of :courseId/assignments, mirror of createLesson. -/
def createAssignment (u : User) (courseId : Nat) (title link : String)
    (cat : Catalog) : Nat × Catalog :=
  if u.role ≠ "admin" then (403, cat)
  else
    let a : Assignment := ⟨cat.nextId, title, link, courseId⟩
    (201, { cat with
      assignments := cat.assignments ++ [a],
      courses := cat.courses.map (fun c =>
        if c.id == courseId then { c with assignments := c.assignments ++ [a.id] } else c),
      nextId := cat.nextId + 1 })

/-- PUT /api/assignments, gated on the authenticated user's role. -/
def updateAssignment (u : User) (id : Nat) (b : AssignmentUpdate) (cat : Catalog) :
    Nat × Catalog :=
  if u.role ≠ "admin" then (403, cat)
  else (200, { cat with
    assignments := cat.assignments.map (fun a =>
      if a.id == id then applyAssignmentUpdate b a else a) })

/-- DELETE /api/assignments, gated on the authenticated user's role. -/
def deleteAssignment (u : User) (id : Nat) (cat : Catalog) : Nat × Catalog :=
  if u.role ≠ "admin" then (403, cat)
  else (200, { cat with assignments := cat.assignments.filter (fun a => a.id != id) })

/-- Fields of a POST /api/send-email body that reach the persisted record or the
template lookup; the remaining body fields only feed the opaque template render
and affect neither the stored state nor the response status. -/
structure EmailRequest where
  wallet : String
  amount : String
  coin : String
  email : String
deriving DecidableEq, Repr

/-- A persisted TransactionEmail document. -/
structure TransactionRecord where
  wallet : String
  amount : String
  email : String
  date : String
  time : String
  status : String
deriving DecidableEq, Repr

/-- The toLowerCase call applied to the wallet name (ASCII character-wise
lowercasing). -/
def toLowerCase (s : String) : String := ⟨s.data.map Char.toLower⟩

/-- Keys of the fixed provider-to-template mapping built at startup. -/
def templateKeys : List String :=
  ["binance", "coinbase", "bybit", "cashapp", "paypal",
   "luno", "zelle", "okx", "roqqu", "bitso"]

/-- The new TransactionEmail document the handler saves: the amount field is the
amount, a space, and the coin; status is the literal Sent. -/
def mkTransactionRecord (req : EmailRequest) (date time : String) : TransactionRecord :=
  ⟨req.wallet, req.amount ++ " " ++ req.coin, req.email, date, time, "Sent"⟩

/-- The POST /api/send-email handler of src/api/t.js (same structure in the unnamed
variant): inside the try block it first saves the record, then looks the lowercased
wallet up in the template map (an unknown key makes the lookup yield undefined and
the call on it throw, caught as a 500), then dispatches the mail (dispatchOk is the
relay's outcome; a relay failure is caught as a 500).  The formatted date and time
strings are opaque inputs here.  In every path the saved record stays in the store
and its status field is never revisited. -/
def sendEmailHandler (dispatchOk : Bool) (date time : String)
    (store : List TransactionRecord) (req : EmailRequest) :
    Nat × List TransactionRecord :=
  let store1 := store ++ [mkTransactionRecord req date time]
  if templateKeys.contains (toLowerCase req.wallet) then
    if dispatchOk then (200, store1) else (500, store1)
  else (500, store1)

/-- Runs a sequence of register requests against the store in order, threading the
store and the fresh-id counter, and collects the role field of each successful
registration response in order. -/
def runRegistrations (reqs : List RegisterRequest) (store : List User)
    (nextId now : Nat) : List User × List String :=
  match reqs with
  | [] => (store, [])
  | r :: rs =>
    match register store nextId now r with
    | (.success _ role _ _, store') =>
      let rest := runRegistrations rs store' (nextId + 1) (now + 1)
      (rest.1, role :: rest.2)
    | (.failure _ _, store') => runRegistrations rs store' (nextId + 1) (now + 1)

/-- Role sequence the spec predicts for n successful registrations from an empty
store: admin first, student from then on. -/
def adminThenStudents : Nat → List String
  | 0 => []
  | n + 1 => "admin" :: List.replicate n "student"

/-- Demo refresh token for witnesses: issued to user 1. -/
def demoRefresh : Token := issueRefreshToken 1 0

/-- Demo access token for witnesses: issued to user 1 with the admin role. -/
def demoAccess : Token := issueAccessToken 1 "admin" 0

/-- Demo stored user for witnesses. -/
def demoUser : User :=
  ⟨1, "Ada", "ada@example.com", bcryptHash "password123", "admin", [demoRefresh]⟩

/-- Demo request carrying the demo access token and matching email header. -/
def demoReq : AuthRequest := ⟨some demoAccess, some "ada@example.com", none⟩

/-- User state for the revocation counterexample: user 1 logged in twice (sessions
issued at instants 0 and 10); the session-0 refresh token has been removed from
refreshTokens, the session-10 one remains. -/
def c2User : User :=
  ⟨1, "Bob", "bob@example.com", bcryptHash "hunter22", "student",
    [issueRefreshToken 1 10]⟩

/-- Demo student user (not an admin) for the catalog-gate counterexample. -/
def demoStudent : User :=
  ⟨2, "Stu", "stu@example.com", bcryptHash "password42", "student", []⟩

/-- Empty catalog state. -/
def demoEmptyCatalog : Catalog := ⟨[], [], [], 0⟩

/-- Two well-formed registration requests for the role-sequence witness. -/
def demoRegs : List RegisterRequest :=
  [⟨some "Ada", some "ada@example.com", some "password123"⟩,
   ⟨some "Bob", some "bob@example.com", some "password456"⟩]

/-- Demo course and catalog for the create-lesson witness. -/
def demoCourse : Course := ⟨5, "Algebra", "MATH101", [], [], 1⟩

/-- Catalog holding the demo course, next fresh id 6. -/
def demoCatalog : Catalog := ⟨[demoCourse], [], [], 6⟩

/-- The send-email scenario request of the spec: wallet Binance, amount 0.5,
coin BTC, recipient a-at-b.com. -/
def demoEmailReq : EmailRequest := ⟨"Binance", "0.5", "BTC", "a@b.com"⟩

/-- A send-email request whose wallet is not a known provider key. -/
def unknownWalletReq : EmailRequest := ⟨"Kraken", "1", "ETH", "a@b.com"⟩

/-- C1: the auth middleware decides every request by checking failure modes in a
fixed order: no bearer access token gives 401 TOKEN_MISSING regardless of other
headers; otherwise a missing claimed-email header gives 401 EMAIL_MISSING;
otherwise a token failing signature/structure verification gives 403
INVALID_TOKEN, except expiry which gives 401 TOKEN_EXPIRED; otherwise an
unresolvable userId/email pair gives 403 INVALID_CREDENTIALS; only a request
passing all of these reaches the refresh-token scan, and on full success the
resolved user is attached and control passes to the next handler. -/
theorem auth_middleware_check_order (store : List User) (now : Nat) (req : AuthRequest) :
    (req.token = none → authenticateToken store now req = .reject 401 "TOKEN_MISSING") ∧
    (∀ tok, req.token = some tok → isBlank req.emailHeader = true →
      authenticateToken store now req = .reject 401 "EMAIL_MISSING") ∧
    (∀ tok, req.token = some tok → isBlank req.emailHeader = false →
      jwtVerify tok JWT_SECRET now = .error .invalid →
      authenticateToken store now req = .reject 403 "INVALID_TOKEN") ∧
    (∀ tok, req.token = some tok → isBlank req.emailHeader = false →
      jwtVerify tok JWT_SECRET now = .error .expired →
      authenticateToken store now req = .reject 401 "TOKEN_EXPIRED") ∧
    (∀ tok p, req.token = some tok → isBlank req.emailHeader = false →
      jwtVerify tok JWT_SECRET now = .ok p →
      findCredential store p.userId (req.emailHeader.getD "") = none →
      authenticateToken store now req = .reject 403 "INVALID_CREDENTIALS") ∧
    (∀ tok p u, req.token = some tok → isBlank req.emailHeader = false →
      jwtVerify tok JWT_SECRET now = .ok p →
      findCredential store p.userId (req.emailHeader.getD "") = some u →
      refreshScan u p.userId now = true →
      authenticateToken store now req = .accept u) := by
  refine ⟨fun ht => by simp [authenticateToken, ht],
    fun tok ht he => by simp [authenticateToken, ht, he],
    fun tok ht he hv => by simp [authenticateToken, ht, he, hv],
    fun tok ht he hv => by simp [authenticateToken, ht, he, hv],
    fun tok p ht he hv hu => by simp [authenticateToken, ht, he, hv, hu],
    fun tok p u ht he hv hu hs => by simp [authenticateToken, ht, he, hv, hu, hs]⟩

/-- Witness for C1: the demo request is accepted with the demo user attached, and
a request with no token but every other header present is rejected TOKEN_MISSING. -/
theorem auth_middleware_check_order_witness :
    authenticateToken [demoUser] 50 demoReq = .accept demoUser ∧
    authenticateToken [] 0 ⟨none, some "x@y.zz", some "admin"⟩ =
      .reject 401 "TOKEN_MISSING" := by
  constructor
  · exact (auth_middleware_check_order [demoUser] 50 demoReq).2.2.2.2.2
      demoAccess ⟨1, some "admin"⟩ demoUser rfl rfl rfl rfl (by decide)
  · exact (auth_middleware_check_order [] 0 ⟨none, some "x@y.zz", some "admin"⟩).1 rfl

/-- C2 counterexample: user 1 holds sessions issued at instants 0 and 10; the
refresh token of session 0 has been removed from the stored refreshTokens (only
session 10's remains), yet session 0's still-unexpired access token is accepted at
instant 100 rather than rejected 403 TOKEN_INVALIDATED, because the scan only
compares the decoded userId and any same-user refresh token satisfies it. -/
theorem refresh_revocation_counterexample :
    issueRefreshToken 1 0 ∉ c2User.refreshTokens ∧
    jwtVerify (issueAccessToken 1 "student" 0) JWT_SECRET 100 = .ok ⟨1, some "student"⟩ ∧
    authenticateToken [c2User] 100
      ⟨some (issueAccessToken 1 "student" 0), some "bob@example.com", none⟩ =
      .accept c2User := by
  refine ⟨by decide, rfl, by decide⟩

/-- C2 (amended): for a request whose access token verifies and whose credentials
resolve to user u, the refresh scan is per-user, not per-session: if no entry of
u's stored refreshTokens verifies under the refresh key, unexpired, and decodes to
the access token's userId — in particular when all of them have been removed — the
middleware rejects 403 TOKEN_INVALIDATED even before the access token's expiry;
conversely if at least one stored entry verifies under the refresh key, is
unexpired, and decodes to the same userId, the request passes the scan and u is
attached. -/
theorem refresh_scan_semantics (store : List User) (now : Nat) (req : AuthRequest)
    (tok : Token) (p : Payload) (u : User)
    (ht : req.token = some tok) (he : isBlank req.emailHeader = false)
    (hv : jwtVerify tok JWT_SECRET now = .ok p)
    (hu : findCredential store p.userId (req.emailHeader.getD "") = some u) :
    ((∀ t ∈ u.refreshTokens, refreshTokenMatches p.userId now t = false) →
      authenticateToken store now req = .reject 403 "TOKEN_INVALIDATED") ∧
    (∀ t ∈ u.refreshTokens, ∀ rt, jwtVerify t JWT_REFRESH_SECRET now = .ok rt →
      rt.userId = p.userId →
      authenticateToken store now req = .accept u) := by
  constructor
  · intro hall
    have hscan : refreshScan u p.userId now = false := by
      simp only [refreshScan, List.any_eq_false]
      exact fun t htmem => by simp [hall t htmem]
    simp [authenticateToken, ht, he, hv, hu, hscan]
  · intro t htmem rt hrt hid
    have hscan : refreshScan u p.userId now = true := by
      simp only [refreshScan, List.any_eq_true]
      exact ⟨t, htmem, by simp [refreshTokenMatches, hrt, hid]⟩
    simp [authenticateToken, ht, he, hv, hu, hscan]

/-- Witness for C2 (amended): the demo user's stored refresh token passes the scan
so the demo request is accepted; stripping the refreshTokens list of the same user
yields 403 TOKEN_INVALIDATED for the same unexpired access token. -/
theorem refresh_scan_semantics_witness :
    authenticateToken [demoUser] 60 demoReq = .accept demoUser ∧
    authenticateToken [{ demoUser with refreshTokens := [] }] 60 demoReq =
      .reject 403 "TOKEN_INVALIDATED" := by
  constructor
  · exact (refresh_scan_semantics [demoUser] 60 demoReq demoAccess ⟨1, some "admin"⟩
      demoUser rfl rfl rfl rfl).2 demoRefresh (by decide) ⟨1, none⟩ rfl rfl
  · exact (refresh_scan_semantics [{ demoUser with refreshTokens := [] }] 60 demoReq
      demoAccess ⟨1, some "admin"⟩ { demoUser with refreshTokens := [] }
      rfl rfl rfl rfl).1 (by decide)

/-- C3 counterexample: an authenticated user whose stored role is student, sending
a role header of admin, gets 201 from the create-course handler and the catalog
gains the course — not the 403 FORBIDDEN with unchanged state the claim predicts
for every non-admin caller. -/
theorem course_create_header_counterexample :
    demoStudent.role ≠ "admin" ∧
    createCourse demoStudent (some "admin") "Algebra" "MATH101" demoEmptyCatalog =
      (201, ⟨[⟨0, "Algebra", "MATH101", [], [], 2⟩], [], [], 1⟩) := by
  refine ⟨by decide, by decide⟩

/-- C3 (amended): every catalog mutating handler except create-course gates on the
authenticated user's role: a non-admin user gets 403 with the catalog unchanged,
an admin proceeds (200 on update/delete, 201 on create).  Create-course instead
gates on the raw role header: any request whose role header is not admin gets 403
with the catalog unchanged, and any request whose role header is admin proceeds
with 201 regardless of the authenticated user's stored role. -/
theorem catalog_admin_gate (u : User) (roleHeader : Option String)
    (cid lid aid : Nat) (n c t y lk : String)
    (cb : CourseUpdate) (lb : LessonUpdate) (ab : AssignmentUpdate) (cat : Catalog) :
    (u.role ≠ "admin" →
      updateCourse u cid cb cat = (403, cat) ∧
      deleteCourse u cid cat = (403, cat) ∧
      createLesson u cid t y cat = (403, cat) ∧
      updateLesson u lid lb cat = (403, cat) ∧
      deleteLesson u lid cat = (403, cat) ∧
      createAssignment u cid t lk cat = (403, cat) ∧
      updateAssignment u aid ab cat = (403, cat) ∧
      deleteAssignment u aid cat = (403, cat)) ∧
    (u.role = "admin" →
      (updateCourse u cid cb cat).1 = 200 ∧
      (deleteCourse u cid cat).1 = 200 ∧
      (createLesson u cid t y cat).1 = 201 ∧
      (updateLesson u lid lb cat).1 = 200 ∧
      (deleteLesson u lid cat).1 = 200 ∧
      (createAssignment u cid t lk cat).1 = 201 ∧
      (updateAssignment u aid ab cat).1 = 200 ∧
      (deleteAssignment u aid cat).1 = 200) ∧
    (roleHeader ≠ some "admin" → createCourse u roleHeader n c cat = (403, cat)) ∧
    (roleHeader = some "admin" → (createCourse u roleHeader n c cat).1 = 201) := by
  refine ⟨fun h => ?_, fun h => ?_, fun h => ?_, fun h => ?_⟩ <;>
    simp [updateCourse, deleteCourse, createLesson, updateLesson, deleteLesson,
      createAssignment, updateAssignment, deleteAssignment, createCourse, h]

/-- Witness for C3 (amended): the demo student is turned away by every
user-role-gated mutating handler with the catalog unchanged, and a create-course
request without an admin role header is turned away too. -/
theorem catalog_admin_gate_witness :
    deleteCourse demoStudent 5 demoCatalog = (403, demoCatalog) ∧
    createLesson demoStudent 5 "Intro" "yt" demoCatalog = (403, demoCatalog) ∧
    createCourse demoStudent none "Algebra" "MATH101" demoCatalog =
      (403, demoCatalog) := by
  have h := catalog_admin_gate demoStudent none 5 0 0 "Algebra" "MATH101" "Intro"
    "yt" "lnk" ⟨none, none⟩ ⟨none, none⟩ ⟨none, none⟩ demoCatalog
  exact ⟨(h.1 (by decide)).2.1, (h.1 (by decide)).2.2.1, h.2.2.1 (by decide)⟩

/-- Case analysis of the register handler: it either fails with a 400 leaving the
store unchanged, or succeeds with 201, reporting admin exactly when the store was
empty, persisting that role on the new user, and appending the new user. -/
theorem register_cases (store : List User) (nextId now : Nat) (r : RegisterRequest) :
    (∃ m, register store nextId now r = (.failure 400 m, store)) ∨
    (∃ tp nu, register store nextId now r =
        (.success 201 (if store.length == 0 then "admin" else "student") tp nu,
          store ++ [nu]) ∧
      nu.role = (if store.length == 0 then "admin" else "student") ∧
      nu.id = nextId ∧
      tp = ⟨issueAccessToken nextId (if store.length == 0 then "admin" else "student") now,
            issueRefreshToken nextId now⟩) := by
  unfold register
  split
  · exact .inl ⟨_, rfl⟩
  · split
    · exact .inl ⟨_, rfl⟩
    · split
      · exact .inl ⟨_, rfl⟩
      · exact .inr ⟨_, _, rfl, rfl, rfl, rfl⟩

/-- A registration never shrinks the store: a nonempty store stays nonempty. -/
theorem register_preserves_nonempty (store : List User) (nextId now : Nat)
    (r : RegisterRequest) (h : store ≠ []) : (register store nextId now r).2 ≠ [] := by
  rcases register_cases store nextId now r with ⟨m, hfail⟩ | ⟨tp, nu, hsucc, -, -, -⟩
  · rw [hfail]; exact h
  · rw [hsucc]; simp

/-- Shape of a successful registration: the role is admin exactly when the store
was empty beforehand, the persisted user carries that role, and the new store is
the old one with the new user appended. -/
theorem register_success_shape (store : List User) (nextId now : Nat)
    (r : RegisterRequest) (s : Nat) (role : String) (tp : TokenPair) (nu : User)
    (h : (register store nextId now r).1 = .success s role tp nu) :
    role = (if store.length == 0 then "admin" else "student") ∧
    nu.role = role ∧ (register store nextId now r).2 = store ++ [nu] := by
  rcases register_cases store nextId now r with ⟨m, hfail⟩ | ⟨tp', nu', hsucc, hrole, -, -⟩
  · rw [hfail] at h; exact absurd h (by simp)
  · rw [hsucc] at h
    simp only [RegisterResult.success.injEq] at h
    obtain ⟨-, hr, -, hnu⟩ := h
    subst hr; subst hnu
    exact ⟨rfl, hrole, by rw [hsucc]⟩

/-- Every successful registration against a nonempty store reports role student. -/
theorem runRegistrations_nonempty_student (reqs : List RegisterRequest) :
    ∀ store nextId now, store ≠ [] →
      ∀ role ∈ (runRegistrations reqs store nextId now).2, role = "student" := by
  induction reqs with
  | nil => intro store n t _ role hr; simp [runRegistrations] at hr
  | cons r rs ih =>
    intro store n t h role hr
    have hne := register_preserves_nonempty store n t r h
    unfold runRegistrations at hr
    rcases hreg : register store n t r with ⟨res, store'⟩
    rw [hreg] at hr hne
    cases res with
    | failure s m => exact ih store' (n + 1) (t + 1) hne role hr
    | success s role' tp nu =>
      have hshape := register_success_shape store n t r s role' tp nu (by rw [hreg])
      simp only [List.mem_cons] at hr
      rcases hr with hr | hr
      · subst hr
        rcases hshape with ⟨hrole, -, -⟩
        rwa [if_neg (by simpa using fun hlen => h (List.length_eq_zero.mp hlen))] at hrole
      · exact ih store' (n + 1) (t + 1) hne role hr

/-- C4: starting from an empty user store, the successful registrations report the
admin role for the first and only the first, student for every later one (the role
list is admin followed by students, whatever interleaving of failures occurs), and
each successful response's role is the one persisted on the stored user record. -/
theorem first_registrant_admin :
    (∀ reqs nextId now,
      (runRegistrations reqs [] nextId now).2 =
        adminThenStudents (runRegistrations reqs [] nextId now).2.length) ∧
    (∀ store nextId now r s role tp nu,
      (register store nextId now r).1 = .success s role tp nu →
      nu.role = role ∧ nu ∈ (register store nextId now r).2) := by
  constructor
  · intro reqs
    induction reqs with
    | nil => intro n t; simp [runRegistrations, adminThenStudents]
    | cons r rs ih =>
      intro n t
      unfold runRegistrations
      rcases hreg : register [] n t r with ⟨res, store'⟩
      cases res with
      | failure s m =>
        have hstore : store' = [] := by
          rcases register_cases [] n t r with ⟨m', hfail⟩ | ⟨tp, nu, hsucc, -, -, -⟩
          · rw [hfail] at hreg
            exact (Prod.mk.injEq .. ▸ hreg).2.symm
          · rw [hsucc] at hreg
            exact absurd (Prod.mk.injEq .. ▸ hreg).1 (by simp)
        simpa [hstore] using ih (n + 1) (t + 1)
      | success s role tp nu =>
        have hshape := register_success_shape [] n t r s role tp nu (by rw [hreg])
        rcases hshape with ⟨hrole, -, hstore⟩
        have hstore' : store' = [nu] := by
          have : (register [] n t r).2 = store' := by rw [hreg]
          rw [← this, hstore]; rfl
        have hrest := runRegistrations_nonempty_student rs [nu] (n + 1) (t + 1) (by simp)
        simp only [List.length_cons, adminThenStudents]
        refine congrArg₂ (· :: ·) (by simpa using hrole) ?_
        rw [hstore']
        exact List.eq_replicate_length.mpr
          (fun b hb => hrest b (by simpa [hstore'] using hb))
  · intro store n t r s role tp nu h
    have hshape := register_success_shape store n t r s role tp nu h
    rcases hshape with ⟨-, hrole, hstore⟩
    exact ⟨hrole, by simp [hstore]⟩

/-- Witness for C4: two successful registrations from the empty store report the
roles admin then student, and the first success persists the admin role. -/
theorem first_registrant_admin_witness :
    (runRegistrations demoRegs [] 1 0).2 = ["admin", "student"] ∧
    ∃ s role tp nu,
      (register [] 1 0 ⟨some "Ada", some "ada@example.com", some "password123"⟩).1 =
        .success s role tp nu ∧
      nu.role = role ∧
      nu ∈ (register [] 1 0 ⟨some "Ada", some "ada@example.com", some "password123"⟩).2 := by
  constructor
  · have h := first_registrant_admin.1 demoRegs 1 0
    rw [show (runRegistrations demoRegs [] 1 0).2.length = 2 from by decide] at h
    simpa [adminThenStudents] using h
  · refine ⟨201, "admin", ⟨issueAccessToken 1 "admin" 0, issueRefreshToken 1 0⟩,
      ⟨1, "Ada", "ada@example.com", bcryptHash "password123", "admin",
        [issueRefreshToken 1 0]⟩, rfl, ?_⟩
    exact first_registrant_admin.2 [] 1 0
      ⟨some "Ada", some "ada@example.com", some "password123"⟩ 201 "admin" _ _ rfl

/-- C5: a login whose email matches no stored user and a login whose email matches
a user but whose password fails the hash comparison produce the same status code
and the same error message (401, Invalid email or password), so the two failure
causes are indistinguishable to the client. -/
theorem login_error_indistinguishable (store : List User) (now₁ now₂ : Nat)
    (e₁ p₁ e₂ p₂ : String) (u : User)
    (he₁ : e₁ ≠ "") (hp₁ : p₁ ≠ "") (he₂ : e₂ ≠ "") (hp₂ : p₂ ≠ "")
    (hno : store.find? (fun v => v.email == e₁) = none)
    (hu : store.find? (fun v => v.email == e₂) = some u)
    (hbad : bcryptCompare p₂ u.password = false) :
    (login store now₁ ⟨some e₁, some p₁⟩).1 = .failure 401 "Invalid email or password" ∧
    (login store now₂ ⟨some e₂, some p₂⟩).1 = .failure 401 "Invalid email or password" ∧
    (login store now₁ ⟨some e₁, some p₁⟩).1 = (login store now₂ ⟨some e₂, some p₂⟩).1 := by
  have h₁ : (login store now₁ ⟨some e₁, some p₁⟩).1 =
      .failure 401 "Invalid email or password" := by
    simp [login, isBlank, String.isEmpty_iff, he₁, hp₁, hno]
  have h₂ : (login store now₂ ⟨some e₂, some p₂⟩).1 =
      .failure 401 "Invalid email or password" := by
    simp [login, isBlank, String.isEmpty_iff, he₂, hp₂, hu, hbad]
  exact ⟨h₁, h₂, h₁.trans h₂.symm⟩

/-- Witness for C5: against a one-user store, an unknown email and a known email
with a wrong password yield literally the same 401 response. -/
theorem login_error_indistinguishable_witness :
    (login [demoUser] 0 ⟨some "nobody@example.com", some "whatever1"⟩).1 =
      .failure 401 "Invalid email or password" ∧
    (login [demoUser] 0 ⟨some "ada@example.com", some "wrongpass"⟩).1 =
      .failure 401 "Invalid email or password" ∧
    (login [demoUser] 0 ⟨some "nobody@example.com", some "whatever1"⟩).1 =
      (login [demoUser] 0 ⟨some "ada@example.com", some "wrongpass"⟩).1 := by
  exact login_error_indistinguishable [demoUser] 0 0 "nobody@example.com" "whatever1"
    "ada@example.com" "wrongpass" demoUser (by decide) (by decide) (by decide)
    (by decide) (by decide) (by decide) (by decide)

/-- C6: registration rejects, with status 400 and no user created, in this
precedence order: a missing name, email, or password field (regardless of the
other checks); otherwise a password shorter than 8 characters (regardless of
duplication); otherwise an email equal to a stored user's. -/
theorem register_validation_order (store : List User) (nextId now : Nat)
    (r : RegisterRequest) :
    ((isBlank r.name || isBlank r.email || isBlank r.password) = true →
      register store nextId now r = (.failure 400 "All fields are required", store)) ∧
    ((isBlank r.name || isBlank r.email || isBlank r.password) = false →
      (r.password.getD "").length < 8 →
      register store nextId now r =
        (.failure 400 "Password must be at least 8 characters", store)) ∧
    ((isBlank r.name || isBlank r.email || isBlank r.password) = false →
      ¬ (r.password.getD "").length < 8 →
      (store.find? (fun u => u.email == r.email.getD "")).isSome = true →
      register store nextId now r = (.failure 400 "Email already in use", store)) := by
  refine ⟨fun h1 => ?_, fun h1 h2 => ?_, fun h1 h2 h3 => ?_⟩
  · simp [register, h1]
  · simp [register, h1, h2]
  · simp [register, h1, h2, h3]

/-- Witness for C6: a request whose password is both too short and whose email
duplicates a stored user's is rejected for the password length, showing the
precedence, and the store is unchanged. -/
theorem register_validation_order_witness :
    register [demoUser] 2 0 ⟨some "Eve", some "ada@example.com", some "short"⟩ =
      (.failure 400 "Password must be at least 8 characters", [demoUser]) ∧
    register [demoUser] 2 0 ⟨some "Eve", none, some "longenough"⟩ =
      (.failure 400 "All fields are required", [demoUser]) ∧
    register [demoUser] 2 0 ⟨some "Eve", some "ada@example.com", some "longenough"⟩ =
      (.failure 400 "Email already in use", [demoUser]) := by
  refine ⟨?_, ?_, ?_⟩
  · exact (register_validation_order [demoUser] 2 0
      ⟨some "Eve", some "ada@example.com", some "short"⟩).2.1 (by decide) (by decide)
  · exact (register_validation_order [demoUser] 2 0
      ⟨some "Eve", none, some "longenough"⟩).1 (by decide)
  · exact (register_validation_order [demoUser] 2 0
      ⟨some "Eve", some "ada@example.com", some "longenough"⟩).2.2
      (by decide) (by decide) (by decide)

/-- C7: every token pair issued by registration or login signs, for the user with
id uid and role r, an access payload of exactly userId plus the role claim under
the access key, and a refresh payload of userId with no role claim under the
refresh key, the two keys being distinct configuration entries. -/
theorem token_pair_payloads :
    (∀ store nextId now r s role tp nu,
      (register store nextId now r).1 = .success s role tp nu →
      tp.token = .signed ⟨nu.id, some nu.role⟩ JWT_SECRET (now + ACCESS_TTL) ∧
      tp.refreshToken = .signed ⟨nu.id, none⟩ JWT_REFRESH_SECRET (now + REFRESH_TTL)) ∧
    (∀ store now r tp u st,
      login store now r = (.success tp u, st) →
      tp.token = .signed ⟨u.id, some u.role⟩ JWT_SECRET (now + ACCESS_TTL) ∧
      tp.refreshToken = .signed ⟨u.id, none⟩ JWT_REFRESH_SECRET (now + REFRESH_TTL)) ∧
    JWT_SECRET ≠ JWT_REFRESH_SECRET := by
  refine ⟨?_, ?_, by decide⟩
  · intro store nextId now r s role tp nu h
    rcases register_cases store nextId now r with ⟨m, hfail⟩ | ⟨tp', nu', hsucc, hrole, hid, htp⟩
    · rw [hfail] at h; exact absurd h (by simp)
    · rw [hsucc] at h
      simp only [RegisterResult.success.injEq] at h
      obtain ⟨-, hr, htp', hnu⟩ := h
      subst htp'; subst hnu; subst htp
      rw [hid, hrole]
      exact ⟨rfl, rfl⟩
  · intro store now r tp u st h
    unfold login at h
    split at h
    · exact absurd h (by simp)
    · split at h
      · exact absurd h (by simp)
      · rename_i user hfind
        split at h
        · exact absurd h (by simp)
        · simp only [Prod.mk.injEq, LoginResult.success.injEq] at h
          obtain ⟨⟨htp, hu⟩, -⟩ := h
          subst htp; subst hu
          exact ⟨rfl, rfl⟩

/-- Witness for C7: the token pair of the bootstrap registration is the admin
access payload under the access key and the bare-userId refresh payload under the
refresh key. -/
theorem token_pair_payloads_witness :
    issueAccessToken 1 "admin" 0 = .signed ⟨1, some "admin"⟩ JWT_SECRET (0 + ACCESS_TTL) ∧
    issueRefreshToken 1 0 = .signed ⟨1, none⟩ JWT_REFRESH_SECRET (0 + REFRESH_TTL) := by
  exact token_pair_payloads.1 [] 1 0
    ⟨some "Ada", some "ada@example.com", some "password123"⟩ 201 "admin"
    ⟨issueAccessToken 1 "admin" 0, issueRefreshToken 1 0⟩
    ⟨1, "Ada", "ada@example.com", bcryptHash "password123", "admin",
      [issueRefreshToken 1 0]⟩ rfl

/-- C8: a successful create-lesson under an existing course C (admin caller,
fresh lesson id, C present in the catalog) responds 201; the updated C in the new
catalog carries the new lesson's id appended, that list contains the id exactly
once, and the stored lesson record references C as its owning course. -/
theorem create_lesson_appends_once (u : User) (cat : Catalog) (courseId : Nat)
    (title yt : String) (C : Course)
    (hadmin : u.role = "admin")
    (hC : C ∈ cat.courses) (hCid : C.id = courseId)
    (hfresh : cat.nextId ∉ C.lessons) :
    (createLesson u courseId title yt cat).1 = 201 ∧
    { C with lessons := C.lessons ++ [cat.nextId] } ∈
      (createLesson u courseId title yt cat).2.courses ∧
    (C.lessons ++ [cat.nextId]).count cat.nextId = 1 ∧
    (⟨cat.nextId, title, yt, courseId⟩ : Lesson) ∈
      (createLesson u courseId title yt cat).2.lessons := by
  refine ⟨by simp [createLesson, hadmin], ?_, ?_, ?_⟩
  · have hmap := List.mem_map_of_mem
      (fun c => if c.id == courseId then { c with lessons := c.lessons ++ [cat.nextId] } else c)
      hC
    simpa [createLesson, hadmin, hCid] using hmap
  · rw [List.count_append, List.count_eq_zero.mpr hfresh]
    simp
  · simp [createLesson, hadmin]

/-- Witness for C8: adding a lesson to the demo catalog's course 5 gives 201, the
course record now lists lesson id 6 exactly once, and the lesson references
course 5. -/
theorem create_lesson_appends_once_witness :
    (createLesson demoUser 5 "Intro" "yt" demoCatalog).1 = 201 ∧
    { demoCourse with lessons := demoCourse.lessons ++ [demoCatalog.nextId] } ∈
      (createLesson demoUser 5 "Intro" "yt" demoCatalog).2.courses ∧
    (demoCourse.lessons ++ [demoCatalog.nextId]).count demoCatalog.nextId = 1 ∧
    (⟨demoCatalog.nextId, "Intro", "yt", 5⟩ : Lesson) ∈
      (createLesson demoUser 5 "Intro" "yt" demoCatalog).2.lessons :=
  create_lesson_appends_once demoUser demoCatalog 5 "Intro" "yt" demoCourse rfl
    (by decide) rfl (by decide)

/-- C9: for a send-email request with a known wallet, the handler persists exactly
one notification record whose amount field is the amount, a space, and the coin
and whose status is the literal Sent; the record is persisted whatever the later
dispatch outcome (the store after the handler does not depend on it and the status
field is never revisited), the response is 200 when dispatch succeeds and 500 when
it fails. -/
theorem send_email_persists_record (dispatchOk : Bool) (date time : String)
    (store : List TransactionRecord) (req : EmailRequest)
    (hknown : templateKeys.contains (toLowerCase req.wallet) = true) :
    (sendEmailHandler dispatchOk date time store req).2 =
      store ++ [mkTransactionRecord req date time] ∧
    (mkTransactionRecord req date time).amount = req.amount ++ " " ++ req.coin ∧
    (mkTransactionRecord req date time).status = "Sent" ∧
    (dispatchOk = true → (sendEmailHandler dispatchOk date time store req).1 = 200) ∧
    (dispatchOk = false → (sendEmailHandler dispatchOk date time store req).1 = 500) := by
  have hk : toLowerCase req.wallet ∈ templateKeys := by simpa using hknown
  refine ⟨?_, rfl, rfl, fun hd => ?_, fun hd => ?_⟩
  · unfold sendEmailHandler
    cases dispatchOk <;> split <;> simp
  · simp [sendEmailHandler, hk, hd]
  · simp [sendEmailHandler, hk, hd]

/-- Witness for C9: the spec's scenario — wallet Binance, amount 0.5, coin BTC,
recipient a-at-b.com, dispatch succeeding — returns 200 and persists the record
with amount 0.5 BTC and status Sent. -/
theorem send_email_persists_record_witness :
    (sendEmailHandler true "Aug 18, 2025" "12:59 PM" [] demoEmailReq).1 = 200 ∧
    (sendEmailHandler true "Aug 18, 2025" "12:59 PM" [] demoEmailReq).2 =
      [⟨"Binance", "0.5 BTC", "a@b.com", "Aug 18, 2025", "12:59 PM", "Sent"⟩] := by
  have h := send_email_persists_record true "Aug 18, 2025" "12:59 PM" [] demoEmailReq
    (by decide)
  exact ⟨h.2.2.2.1 rfl, by rw [h.1]; decide⟩

/-- C10: for a send-email request whose lowercased wallet is not one of the ten
provider keys, the handler responds 500, but the notification record — already
persisted with status Sent before the template lookup failed — remains in the
store, so the error response does not imply unchanged state. -/
theorem send_email_unknown_provider (dispatchOk : Bool) (date time : String)
    (store : List TransactionRecord) (req : EmailRequest)
    (hunknown : templateKeys.contains (toLowerCase req.wallet) = false) :
    (sendEmailHandler dispatchOk date time store req).1 = 500 ∧
    (sendEmailHandler dispatchOk date time store req).2 =
      store ++ [mkTransactionRecord req date time] ∧
    (mkTransactionRecord req date time).status = "Sent" := by
  have hk : toLowerCase req.wallet ∉ templateKeys := by simpa using hunknown
  refine ⟨by simp [sendEmailHandler, hk], ?_, rfl⟩
  unfold sendEmailHandler
  cases dispatchOk <;> split <;> simp

/-- Witness for C10: a Kraken-wallet request yields 500 with the Sent record
nevertheless persisted. -/
theorem send_email_unknown_provider_witness :
    (sendEmailHandler true "d" "t" [] unknownWalletReq).1 = 500 ∧
    (sendEmailHandler true "d" "t" [] unknownWalletReq).2 =
      [⟨"Kraken", "1 ETH", "a@b.com", "d", "t", "Sent"⟩] := by
  have h := send_email_unknown_provider true "d" "t" [] unknownWalletReq (by decide)
  exact ⟨h.1, by rw [h.2.1]; decide⟩

end LMS
